import Mathlib

/-!
# MyBatteryMAX17043: battery gauge monitor

Shallow embedding of `src/MyBatteryMAX17043.h`.

* Battery levels (`float` in the source) are exact rationals: every finite
  `float` is a rational and the source only compares levels (`!=`, `<`).
* `unsigned int` counters are naturals reduced modulo `uintModulus` where the
  source increments them.
* The clock (`millis()`) is an argument `now` of every operation that reads it;
  one call of `loop` sees one value of the clock.
* The value the gauge would return from `getSOC()` is the argument `soc`.
* Calls to the outside world (gauge, gateway, sleep) are recorded, in order,
  in a list of `Effect`s returned next to the new state.
* The build flag `MY_DEBUG` is the Boolean argument `myDebug`.
-/

namespace Battery

/-- Number of values of an `unsigned int` (16 bits on the AVR boards the
sketch targets). -/
def uintModulus : Nat := 65536

/-- Modelled from the spec: the class `DataBuffer` of `ArduinoProperty.h`,
which is not part of the sources (spec 3 and 4.1, IntervalTimer): a period and
the absolute time at which the timer expires. -/
structure DataBuffer where
  period : Nat
  deadline : Int
deriving DecidableEq, Repr

namespace DataBuffer

/-- Modelled from the spec: the constructor of `DataBuffer` (spec 4.1
`new(period)`): creates a timer whose deadline is `now + period`. -/
def create (now period : Nat) : DataBuffer :=
  { period := period, deadline := (now : Int) + (period : Int) }

/-- Modelled from the spec: `DataBuffer::isOutdated` (spec 4.1
`is_outdated`): true iff current time is at least the deadline. -/
def isOutdated (b : DataBuffer) (now : Nat) : Bool :=
  decide (b.deadline ≤ (now : Int))

/-- Modelled from the spec: `DataBuffer::reset` (spec 4.1 `reset`): sets the
deadline to `now + period`. -/
def reset (b : DataBuffer) (now : Nat) : DataBuffer :=
  { b with deadline := (now : Int) + (b.period : Int) }

/-- Modelled from the spec: `DataBuffer::moveForward` (spec 4.1
`move_forward`): sets the deadline to `deadline - delta`. -/
def moveForward (b : DataBuffer) (increment : Nat) : DataBuffer :=
  { b with deadline := b.deadline - (increment : Int) }

end DataBuffer

/-- Calls made by the monitor to its collaborators. -/
inductive Effect where
  /-- Call of `battery.getSOC()`. -/
  | getSOC : Effect
  /-- Call of `sendLog(message)` (only with `MY_DEBUG`). -/
  | sendLog (message : String) : Effect
  /-- Call of `sendBatteryLevel(level, ack)`. -/
  | sendBatteryLevel (level : ℚ) (ack : Bool) : Effect
  /-- Call of `sleep(digitalPinToInterrupt(pin), CHANGE, 0)`. -/
  | sleep (pin : Nat) : Effect
deriving DecidableEq

namespace Effect

/-- A call of `sendBatteryLevel`, whatever the level. -/
def isReport : Effect → Bool
  | sendBatteryLevel _ _ => true
  | _ => false

/-- A call of `sendBatteryLevel` with level zero. -/
def isZeroReport : Effect → Bool
  | sendBatteryLevel l _ => decide (l = 0)
  | _ => false

/-- A call of `sleep`. -/
def isSleep : Effect → Bool
  | sleep _ => true
  | _ => false

end Effect

/-- The fields of `class MyBatteryMAX17043` (the gauge driver `battery` is
outside: its readings are arguments). -/
structure MyBatteryMAX17043 where
  enable : Bool
  intervalSend : DataBuffer
  intervalSendForce : DataBuffer
  level : ℚ
  lastLevel : ℚ
  levelLimit : ℚ
  levelLimitSecurityCpt : Nat
  levelLimitSecurityCptMax : Nat
  dataSent : Bool
  pinInterrupt : Nat
deriving DecidableEq

namespace MyBatteryMAX17043

/-- The constructor (lines 23-34) run at time `now`. The fields `level`,
`lastLevel` and `dataSent` have no initialiser in the source: their initial
values are the arguments `level0`, `lastLevel0`, `dataSent0`. -/
def create (now : Nat) (intervalSend intervalSendForce : Nat) (limit : ℚ)
    (pinInterrupt : Nat) (level0 lastLevel0 : ℚ) (dataSent0 : Bool) :
    MyBatteryMAX17043 :=
  { enable := true
    intervalSend := DataBuffer.create now intervalSend
    intervalSendForce := DataBuffer.create now intervalSendForce
    level := level0
    lastLevel := lastLevel0
    levelLimit := limit
    levelLimitSecurityCpt := 0
    levelLimitSecurityCptMax := 3
    dataSent := dataSent0
    pinInterrupt := pinInterrupt }

/-- Method `isEnable` (lines 124-127). -/
def isEnable (s : MyBatteryMAX17043) : Bool := s.enable

/-- Method `setEnable` (lines 116-119). -/
def setEnable (enable : Bool) (s : MyBatteryMAX17043) : MyBatteryMAX17043 :=
  { s with enable := enable }

/-- Method `isDataSent` (lines 132-135). -/
def isDataSent (s : MyBatteryMAX17043) : Bool := s.dataSent

/-- Method `setLevelLimitSecurityCptMax` (lines 140-143). -/
def setLevelLimitSecurityCptMax (levelLimitSecurityCptMax : Nat)
    (s : MyBatteryMAX17043) : MyBatteryMAX17043 :=
  { s with levelLimitSecurityCptMax := levelLimitSecurityCptMax }

/-- Method `getIntervalSend` (lines 148-151). -/
def getIntervalSend (s : MyBatteryMAX17043) : DataBuffer := s.intervalSend

/-- Method `getIntervalSendForce` (lines 156-159). -/
def getIntervalSendForce (s : MyBatteryMAX17043) : DataBuffer := s.intervalSendForce

/-- Method `bufferMoveForward` (lines 93-97). -/
def bufferMoveForward (increment : Nat) (s : MyBatteryMAX17043) : MyBatteryMAX17043 :=
  { s with
    intervalSend := s.intervalSend.moveForward increment
    intervalSendForce := s.intervalSendForce.moveForward increment }

/-- Method `sendLevel` (lines 102-111): optional log, the level goes to the gateway
with acknowledgement requested, and becomes the last level. -/
def sendLevel (myDebug : Bool) (s : MyBatteryMAX17043) :
    MyBatteryMAX17043 × List Effect :=
  ({ s with lastLevel := s.level },
   (if myDebug then [Effect.sendLog ("Send battery lvl to gtw")] else [])
     ++ [Effect.sendBatteryLevel s.level true])

/-- The condition of lines 169-172, evaluated once the gauge has been read. -/
def sendCondition (now : Nat) (s : MyBatteryMAX17043) : Bool :=
  s.intervalSendForce.isOutdated now
    || (s.intervalSend.isOutdated now && decide (s.level ≠ s.lastLevel))

/-- Lines 165-175 of `process`: clear the flag, read the gauge, send to the
gateway when the condition holds. -/
def processSend (myDebug : Bool) (now : Nat) (soc : ℚ) (s : MyBatteryMAX17043) :
    MyBatteryMAX17043 × List Effect :=
  let s1 := { s with dataSent := false }
  let s2 := { s1 with level := soc }
  if sendCondition now s2 then
    let r := sendLevel myDebug s2
    ({ r.1 with dataSent := true }, Effect.getSOC :: r.2)
  else
    (s2, [Effect.getSOC])

/-- Lines 177-183 of `process`: reset each interval that is outdated. -/
def processReset (now : Nat) (s : MyBatteryMAX17043) : MyBatteryMAX17043 :=
  let s1 := if s.intervalSend.isOutdated now then
      { s with intervalSend := s.intervalSend.reset now } else s
  if s1.intervalSendForce.isOutdated now then
    { s1 with intervalSendForce := s1.intervalSendForce.reset now } else s1

/-- Lines 185-190 of `process`: count the consecutive readings below the limit. -/
def processCpt (s : MyBatteryMAX17043) : MyBatteryMAX17043 :=
  if s.level < s.levelLimit then
    { s with levelLimitSecurityCpt := (s.levelLimitSecurityCpt + 1) % uintModulus }
  else
    { s with levelLimitSecurityCpt := 0 }

/-- Lines 192-204 of `process`: when the counter has reached its maximum,
clear it, force the level to zero, send it and go to sleep. -/
def processSleep (myDebug : Bool) (s : MyBatteryMAX17043) :
    MyBatteryMAX17043 × List Effect :=
  if s.levelLimitSecurityCptMax ≤ s.levelLimitSecurityCpt then
    let s1 := { s with levelLimitSecurityCpt := 0 }
    let s2 := { s1 with level := 0 }
    let r := sendLevel myDebug s2
    (r.1, r.2 ++ (if myDebug then [Effect.sendLog ("Deep sleep mode!")] else [])
            ++ [Effect.sleep r.1.pinInterrupt])
  else
    (s, [])

/-- Method `process` (lines 163-205). -/
def process (myDebug : Bool) (now : Nat) (soc : ℚ) (s : MyBatteryMAX17043) :
    MyBatteryMAX17043 × List Effect :=
  let a := processSend myDebug now soc s
  let b := processCpt (processReset now a.1)
  let c := processSleep myDebug b
  (c.1, a.2 ++ c.2)

/-- Method `loop` (lines 80-88). -/
def loop (myDebug : Bool) (now : Nat) (soc : ℚ) (s : MyBatteryMAX17043) :
    MyBatteryMAX17043 × List Effect :=
  if s.isEnable then
    if s.intervalSend.isOutdated now || s.intervalSendForce.isOutdated now then
      process myDebug now soc s
    else
      (s, [])
  else
    (s, [])

end MyBatteryMAX17043

open MyBatteryMAX17043

/-- The public operations a host sketch can call on the monitor. -/
inductive Op where
  | loop (now : Nat) (soc : ℚ) : Op
  | setEnable (enable : Bool) : Op
  | bufferMoveForward (increment : Nat) : Op
  | setLevelLimitSecurityCptMax (levelLimitSecurityCptMax : Nat) : Op
deriving DecidableEq

/-- One public operation. -/
def applyOp (myDebug : Bool) (op : Op) (s : MyBatteryMAX17043) :
    MyBatteryMAX17043 × List Effect :=
  match op with
  | Op.loop now soc => loop myDebug now soc s
  | Op.setEnable e => (setEnable e s, [])
  | Op.bufferMoveForward i => (bufferMoveForward i s, [])
  | Op.setLevelLimitSecurityCptMax m => (setLevelLimitSecurityCptMax m s, [])

/-- A sequence of public operations, with all the effects in order. -/
def run (myDebug : Bool) : List Op → MyBatteryMAX17043 → MyBatteryMAX17043 × List Effect
  | [], s => (s, [])
  | op :: ops, s =>
    let r := applyOp myDebug op s
    let t := run myDebug ops r.1
    (t.1, r.2 ++ t.2)

/-- The effects of each call of a sequence of `loop` calls, call by call. -/
def loopTrace (myDebug : Bool) : List (Nat × ℚ) → MyBatteryMAX17043 → List (List Effect)
  | [], _ => []
  | (now, soc) :: ticks, s =>
    let r := loop myDebug now soc s
    r.2 :: loopTrace myDebug ticks r.1

/-- The state after a sequence of `loop` calls. -/
def loopStates (myDebug : Bool) : List (Nat × ℚ) → MyBatteryMAX17043 → MyBatteryMAX17043
  | [], s => s
  | (now, soc) :: ticks, s => loopStates myDebug ticks (loop myDebug now soc s).1

/-- The test of line 193 as a cycle of `process` evaluates it: after the
counter update of lines 186-190, the counter is at least its maximum. -/
def cptReachesMax (myDebug : Bool) (now : Nat) (soc : ℚ) (s : MyBatteryMAX17043) : Bool :=
  let b := processCpt (processReset now (processSend myDebug now soc s).1)
  decide (b.levelLimitSecurityCptMax ≤ b.levelLimitSecurityCpt)

/-- The monitor built at time 0 with intervals 1000 and 5000, limit 20 and pin
3, after calls of `loop` at times 1000 and 2000 with readings 10: the soft
interval alone is outdated at time 3000, the last sent level is 10 and two
low readings are counted out of three. -/
def lowSoftState : MyBatteryMAX17043 :=
  { enable := true
    intervalSend := { period := 1000, deadline := 3000 }
    intervalSendForce := { period := 5000, deadline := 5000 }
    level := 10
    lastLevel := 10
    levelLimit := 20
    levelLimitSecurityCpt := 2
    levelLimitSecurityCptMax := 3
    dataSent := false
    pinInterrupt := 3 }

/-- The same monitor after calls of `loop` at times 1000 and 4500 with readings
10: the forced interval alone is outdated at time 5000, the last sent level is
10 and two low readings are counted out of three. -/
def lowForceState : MyBatteryMAX17043 :=
  { enable := true
    intervalSend := { period := 1000, deadline := 5500 }
    intervalSendForce := { period := 5000, deadline := 5000 }
    level := 10
    lastLevel := 10
    levelLimit := 20
    levelLimitSecurityCpt := 2
    levelLimitSecurityCptMax := 3
    dataSent := false
    pinInterrupt := 3 }

/-- The effects of one call of `sendLevel` when the level is `level`. -/
def sendLevelEffects (myDebug : Bool) (level : ℚ) : List Effect :=
  (if myDebug then [Effect.sendLog ("Send battery lvl to gtw")] else [])
    ++ [Effect.sendBatteryLevel level true]

/-- The effects of lines 194-202: the zero level is sent, then `sleep` is
called on the interrupt pin. -/
def sleepEffects (myDebug : Bool) (pin : Nat) : List Effect :=
  sendLevelEffects myDebug 0
    ++ (if myDebug then [Effect.sendLog ("Deep sleep mode!")] else [])
    ++ [Effect.sleep pin]

/-- Along a sequence of public operations started in `s`, every call of
`setLevelLimitSecurityCptMax` receives a maximum that is at least the counter
at the time of the call. -/
def cptMaxGuarded (myDebug : Bool) : List Op → MyBatteryMAX17043 → Bool
  | [], _ => true
  | Op.setLevelLimitSecurityCptMax m :: ops, s =>
    decide (s.levelLimitSecurityCpt ≤ m)
      && cptMaxGuarded myDebug ops (applyOp myDebug (Op.setLevelLimitSecurityCptMax m) s).1
  | op :: ops, s => cptMaxGuarded myDebug ops (applyOp myDebug op s).1

/-- The monitor of the scenario of spec 8 with the constructor of spec 4.1:
built at time 0 with a soft interval of 1000 ms, a forced interval of 5000 ms,
limit 20 and interrupt pin 3, then given 2 as maximum of the counter. -/
def scenarioMonitor (level0 lastLevel0 : ℚ) (dataSent0 : Bool) : MyBatteryMAX17043 :=
  setLevelLimitSecurityCptMax 2 (create 0 1000 5000 20 3 level0 lastLevel0 dataSent0)

/-- The calls of `loop` of the scenario of spec 8: the time of each call and
the level the gauge holds at that time. -/
def scenarioTicks : List (Nat × ℚ) :=
  [(0, 50), (1000, 50), (2000, 50), (3000, 10), (4000, 10)]

/-- The reports and sleeps among the effects of one call. -/
def reportsAndSleeps (effects : List Effect) : List Effect :=
  effects.filter (fun e => e.isReport || e.isSleep)

/-- The state of the scenario monitor after its first cycle of `process` (at
time 1000, reading 50, report sent). -/
def scenarioAfterFirstCycle : MyBatteryMAX17043 :=
  { enable := true
    intervalSend := { period := 1000, deadline := 2000 }
    intervalSendForce := { period := 5000, deadline := 5000 }
    level := 50
    lastLevel := 50
    levelLimit := 20
    levelLimitSecurityCpt := 0
    levelLimitSecurityCptMax := 2
    dataSent := true
    pinInterrupt := 3 }

/-- The state after a sequence of cycles of `process`, each with the time of
the cycle and the level the gauge returns in it. -/
def processStates (myDebug : Bool) : List (Nat × ℚ) → MyBatteryMAX17043 → MyBatteryMAX17043
  | [], s => s
  | (now, soc) :: cycles, s => processStates myDebug cycles (process myDebug now soc s).1

/-- The number of readings at the end of a sequence that are all below the
limit: the length of the trailing run of low readings. -/
def trailingLow (limit : ℚ) (readings : List ℚ) : Nat :=
  (readings.reverse.takeWhile (fun r => decide (r < limit))).length

section Frame

variable (myDebug : Bool) (now : Nat) (soc : ℚ) (s : MyBatteryMAX17043)

theorem sendLevel_effects :
    (sendLevel myDebug s).2 = sendLevelEffects myDebug s.level := rfl

theorem processSend_level : (processSend myDebug now soc s).1.level = soc := by
  simp only [processSend, sendLevel]; split_ifs <;> rfl

theorem processSend_levelLimit :
    (processSend myDebug now soc s).1.levelLimit = s.levelLimit := by
  simp only [processSend, sendLevel]; split_ifs <;> rfl

theorem processSend_cpt :
    (processSend myDebug now soc s).1.levelLimitSecurityCpt = s.levelLimitSecurityCpt := by
  simp only [processSend, sendLevel]; split_ifs <;> rfl

theorem processSend_cptMax :
    (processSend myDebug now soc s).1.levelLimitSecurityCptMax
      = s.levelLimitSecurityCptMax := by
  simp only [processSend, sendLevel]; split_ifs <;> rfl

theorem processSend_pin :
    (processSend myDebug now soc s).1.pinInterrupt = s.pinInterrupt := by
  simp only [processSend, sendLevel]; split_ifs <;> rfl

theorem processSend_intervalSend :
    (processSend myDebug now soc s).1.intervalSend = s.intervalSend := by
  simp only [processSend, sendLevel]; split_ifs <;> rfl

theorem processSend_intervalSendForce :
    (processSend myDebug now soc s).1.intervalSendForce = s.intervalSendForce := by
  simp only [processSend, sendLevel]; split_ifs <;> rfl

theorem processSend_dataSent :
    (processSend myDebug now soc s).1.dataSent
      = (s.intervalSendForce.isOutdated now
          || (s.intervalSend.isOutdated now && decide (soc ≠ s.lastLevel))) := by
  simp only [processSend, sendLevel, sendCondition]
  split_ifs with h
  all_goals first | exact h.symm | exact (Bool.eq_false_iff.mpr h).symm

theorem sendCondition_level :
    sendCondition now { s with level := soc } =
      (s.intervalSendForce.isOutdated now
        || (s.intervalSend.isOutdated now && decide (soc ≠ s.lastLevel))) := rfl

theorem processSend_effects :
    (processSend myDebug now soc s).2 =
      Effect.getSOC ::
        (if sendCondition now { s with level := soc } = true
         then sendLevelEffects myDebug soc else []) := by
  simp only [processSend, sendLevel, sendCondition, sendLevelEffects]
  split_ifs <;> rfl

theorem processReset_level : (processReset now s).level = s.level := by
  simp only [processReset]; split_ifs <;> rfl

theorem processReset_levelLimit : (processReset now s).levelLimit = s.levelLimit := by
  simp only [processReset]; split_ifs <;> rfl

theorem processReset_cpt :
    (processReset now s).levelLimitSecurityCpt = s.levelLimitSecurityCpt := by
  simp only [processReset]; split_ifs <;> rfl

theorem processReset_cptMax :
    (processReset now s).levelLimitSecurityCptMax = s.levelLimitSecurityCptMax := by
  simp only [processReset]; split_ifs <;> rfl

theorem processReset_pin : (processReset now s).pinInterrupt = s.pinInterrupt := by
  simp only [processReset]; split_ifs <;> rfl

theorem processReset_dataSent : (processReset now s).dataSent = s.dataSent := by
  simp only [processReset]; split_ifs <;> rfl

theorem processCpt_cptMax :
    (processCpt s).levelLimitSecurityCptMax = s.levelLimitSecurityCptMax := by
  simp only [processCpt]; split_ifs <;> rfl

theorem processCpt_pin : (processCpt s).pinInterrupt = s.pinInterrupt := by
  simp only [processCpt]; split_ifs <;> rfl

theorem processCpt_dataSent : (processCpt s).dataSent = s.dataSent := by
  simp only [processCpt]; split_ifs <;> rfl

theorem processCpt_cpt :
    (processCpt s).levelLimitSecurityCpt =
      if s.level < s.levelLimit then (s.levelLimitSecurityCpt + 1) % uintModulus else 0 := by
  simp only [processCpt]; split_ifs <;> rfl

theorem processSleep_dataSent : (processSleep myDebug s).1.dataSent = s.dataSent := by
  simp only [processSleep, sendLevel]; split_ifs <;> rfl

theorem processSleep_cptMax :
    (processSleep myDebug s).1.levelLimitSecurityCptMax = s.levelLimitSecurityCptMax := by
  simp only [processSleep, sendLevel]; split_ifs <;> rfl

theorem processSleep_cpt :
    (processSleep myDebug s).1.levelLimitSecurityCpt =
      if s.levelLimitSecurityCptMax ≤ s.levelLimitSecurityCpt then 0
      else s.levelLimitSecurityCpt := by
  simp only [processSleep, sendLevel]; split_ifs <;> rfl

theorem processSleep_effects :
    (processSleep myDebug s).2 =
      if s.levelLimitSecurityCptMax ≤ s.levelLimitSecurityCpt then
        sleepEffects myDebug s.pinInterrupt
      else [] := by
  simp only [processSleep, sendLevel, sleepEffects, sendLevelEffects]; split_ifs <;> rfl

theorem processReset_intervalSend :
    (processReset now s).intervalSend =
      if s.intervalSend.isOutdated now = true then s.intervalSend.reset now
      else s.intervalSend := by
  simp only [processReset]; split_ifs <;> rfl

theorem processReset_intervalSendForce :
    (processReset now s).intervalSendForce =
      if s.intervalSendForce.isOutdated now = true then s.intervalSendForce.reset now
      else s.intervalSendForce := by
  simp only [processReset]; split_ifs <;> rfl

theorem processCpt_intervalSend : (processCpt s).intervalSend = s.intervalSend := by
  simp only [processCpt]; split_ifs <;> rfl

theorem processCpt_intervalSendForce :
    (processCpt s).intervalSendForce = s.intervalSendForce := by
  simp only [processCpt]; split_ifs <;> rfl

theorem processSleep_intervalSend :
    (processSleep myDebug s).1.intervalSend = s.intervalSend := by
  simp only [processSleep, sendLevel]; split_ifs <;> rfl

theorem processSleep_intervalSendForce :
    (processSleep myDebug s).1.intervalSendForce = s.intervalSendForce := by
  simp only [processSleep, sendLevel]; split_ifs <;> rfl

/-- The counter that line 193 tests, in terms of the state before the cycle. -/
theorem cptReachesMax_eq :
    cptReachesMax myDebug now soc s =
      decide (s.levelLimitSecurityCptMax ≤
        (if soc < s.levelLimit then (s.levelLimitSecurityCpt + 1) % uintModulus else 0)) := by
  unfold cptReachesMax
  simp only [processCpt_cptMax, processCpt_cpt, processReset_cptMax, processReset_cpt,
    processReset_level, processReset_levelLimit, processSend_cptMax, processSend_cpt,
    processSend_level, processSend_levelLimit]

/-- The effects of a cycle: those of the sending phase, then those of the
sleeping phase. -/
theorem process_effects :
    (process myDebug now soc s).2 =
      (processSend myDebug now soc s).2 ++
        (if cptReachesMax myDebug now soc s = true then
          sleepEffects myDebug s.pinInterrupt
        else []) := by
  unfold process cptReachesMax
  simp only [processSleep_effects, processCpt_pin, processReset_pin, processSend_pin,
    decide_eq_true_eq]

theorem process_dataSent :
    (process myDebug now soc s).1.dataSent
      = (s.intervalSendForce.isOutdated now
          || (s.intervalSend.isOutdated now && decide (soc ≠ s.lastLevel))) := by
  unfold process
  simp only [processSleep_dataSent, processCpt_dataSent, processReset_dataSent,
    processSend_dataSent]

theorem process_cpt :
    (process myDebug now soc s).1.levelLimitSecurityCpt =
      if cptReachesMax myDebug now soc s = true then 0
      else (if soc < s.levelLimit then (s.levelLimitSecurityCpt + 1) % uintModulus else 0) := by
  unfold process cptReachesMax
  simp only [processSleep_cpt, processCpt_cptMax, processCpt_cpt, processReset_cptMax,
    processReset_cpt, processReset_level, processReset_levelLimit, processSend_cptMax,
    processSend_cpt, processSend_level, processSend_levelLimit, decide_eq_true_eq]

theorem process_cptMax :
    (process myDebug now soc s).1.levelLimitSecurityCptMax = s.levelLimitSecurityCptMax := by
  unfold process
  simp only [processSleep_cptMax, processCpt_cptMax, processReset_cptMax, processSend_cptMax]

end Frame

/-! ## The sample states are reached from construction -/

theorem lowSoftState_reached :
    loopStates false [(1000, 10), (2000, 10)] (create 0 1000 5000 20 3 0 0 false)
      = lowSoftState := by
  decide

theorem lowForceState_reached :
    loopStates false [(1000, 10), (4500, 10)] (create 0 1000 5000 20 3 0 0 false)
      = lowForceState := by
  decide

/-! ## The report condition -/

/-- C1: for every monitor state and every gauge reading, a cycle of `process`
run while the forced interval is outdated sends the reading to the gateway and
leaves the data-sent flag set, whatever the last sent level and whether or not
the soft interval is outdated. -/
theorem process_force_outdated_sends (myDebug : Bool) (now : Nat) (soc : ℚ)
    (s : MyBatteryMAX17043) (h : s.intervalSendForce.isOutdated now = true) :
    Effect.sendBatteryLevel soc true ∈ (process myDebug now soc s).2
      ∧ (process myDebug now soc s).1.isDataSent = true := by
  constructor
  · rw [process_effects, processSend_effects, sendCondition_level, h]
    simp [sendLevelEffects]
  · simp [isDataSent, process_dataSent, h]

/-- Witness of C1: forced interval outdated, soft interval not, reading equal to
the last sent level. -/
theorem process_force_outdated_sends_witness :
    lowForceState.intervalSendForce.isOutdated 5000 = true
      ∧ lowForceState.intervalSend.isOutdated 5000 = false
      ∧ lowForceState.lastLevel = 10
      ∧ Effect.sendBatteryLevel 10 true ∈ (process false 5000 10 lowForceState).2
      ∧ (process false 5000 10 lowForceState).1.isDataSent = true :=
  ⟨by decide, by decide, by decide,
    process_force_outdated_sends false 5000 10 lowForceState (by decide)⟩

/-- C2 as stated fails: with only the soft interval outdated and a reading equal
to the last sent level, a cycle that confirms the low battery still sends a
report (the zero level of lines 194-196). -/
theorem soft_only_same_level_report_sent :
    lowSoftState.intervalSend.isOutdated 3000 = true
      ∧ lowSoftState.intervalSendForce.isOutdated 3000 = false
      ∧ ¬ ((∃ e ∈ (process false 3000 10 lowSoftState).2, e.isReport = true)
            ↔ (10 : ℚ) ≠ lowSoftState.lastLevel) := by
  decide

/-- C2 amended: in a cycle of `process` where the soft interval is outdated, the
forced one is not, and the counter does not reach its maximum, a report is sent
iff the reading differs from the last sent level, and that report carries the
reading. -/
theorem process_soft_only_report_iff (myDebug : Bool) (now : Nat) (soc : ℚ)
    (s : MyBatteryMAX17043)
    (hs : s.intervalSend.isOutdated now = true)
    (hf : s.intervalSendForce.isOutdated now = false)
    (hm : cptReachesMax myDebug now soc s = false) :
    ((∃ e ∈ (process myDebug now soc s).2, e.isReport = true) ↔ soc ≠ s.lastLevel)
      ∧ (Effect.sendBatteryLevel soc true ∈ (process myDebug now soc s).2
          ↔ soc ≠ s.lastLevel)
      ∧ ((process myDebug now soc s).1.isDataSent = true ↔ soc ≠ s.lastLevel) := by
  refine ⟨?_, ?_, ?_⟩
  · rw [process_effects, processSend_effects, sendCondition_level, hm, hs, hf]
    by_cases hne : soc = s.lastLevel <;> cases myDebug <;>
      simp [hne, sendLevelEffects, Effect.isReport]
  · rw [process_effects, processSend_effects, sendCondition_level, hm, hs, hf]
    by_cases hne : soc = s.lastLevel <;> cases myDebug <;>
      simp [hne, sendLevelEffects]
  · simp [isDataSent, process_dataSent, hs, hf]

/-- Witness of C2 amended: the soft interval alone is outdated and the reading
50 is not below the limit. -/
theorem process_soft_only_report_iff_witness :
    lowSoftState.intervalSend.isOutdated 3000 = true
      ∧ lowSoftState.intervalSendForce.isOutdated 3000 = false
      ∧ cptReachesMax false 3000 50 lowSoftState = false
      ∧ (((∃ e ∈ (process false 3000 50 lowSoftState).2, e.isReport = true)
            ↔ (50 : ℚ) ≠ lowSoftState.lastLevel)
          ∧ (Effect.sendBatteryLevel 50 true ∈ (process false 3000 50 lowSoftState).2
              ↔ (50 : ℚ) ≠ lowSoftState.lastLevel)
          ∧ ((process false 3000 50 lowSoftState).1.isDataSent = true
              ↔ (50 : ℚ) ≠ lowSoftState.lastLevel)) :=
  ⟨by decide, by decide, by decide,
    process_soft_only_report_iff false 3000 50 lowSoftState (by decide) (by decide)
      (by decide)⟩

/-! ## The low battery sequence -/

/-- Counting in the effects of a cycle that ends with the sleep sequence,
`c` being the outcome of the condition of lines 169-172. -/
theorem sleep_cycle_counts (myDebug c : Bool) (soc : ℚ) (pin : Nat) :
    ((Effect.getSOC :: (if c = true then sendLevelEffects myDebug soc else []))
        ++ sleepEffects myDebug pin).countP Effect.isSleep = 1
      ∧ ((Effect.getSOC :: (if c = true then sendLevelEffects myDebug soc else []))
        ++ sleepEffects myDebug pin).getLast? = some (Effect.sleep pin)
      ∧ ((Effect.getSOC :: (if c = true then sendLevelEffects myDebug soc else []))
        ++ sleepEffects myDebug pin).countP Effect.isZeroReport =
          (if (c && decide (soc = 0)) = true then 2 else 1)
      ∧ ((Effect.getSOC :: (if c = true then sendLevelEffects myDebug soc else []))
        ++ sleepEffects myDebug pin).countP Effect.isReport =
          (if c = true then 2 else 1) := by
  cases c <;> cases myDebug <;> by_cases h0 : soc = 0 <;>
    simp [sleepEffects, sendLevelEffects, List.countP_cons, Effect.isSleep,
      Effect.isZeroReport, Effect.isReport, h0]

/-- C3 as stated fails: when the gauge reads 0 and the forced interval is
outdated, the cycle that confirms the low battery emits two zero-level reports
(the ordinary one of line 173 and the one of line 196). -/
theorem sleep_cycle_two_zero_reports :
    cptReachesMax false 5000 0 lowForceState = true
      ∧ (process false 5000 0 lowForceState).2 =
          [Effect.getSOC, Effect.sendBatteryLevel 0 true, Effect.sendBatteryLevel 0 true,
            Effect.sleep 3]
      ∧ (process false 5000 0 lowForceState).2.countP Effect.isZeroReport ≠ 1 := by
  decide

/-- C3 amended: in every cycle of `process` in which the counter reaches its
maximum, the effects contain exactly one call of `sleep`, which is the last
effect, and the sleep sequence adds exactly one zero-level report: the cycle
contains one zero-level report, or two when the ordinary report of the cycle
was sent with a reading of 0; it contains one report in all, or two when the
ordinary report was sent. -/
theorem process_sleep_sequence (myDebug : Bool) (now : Nat) (soc : ℚ)
    (s : MyBatteryMAX17043) (hm : cptReachesMax myDebug now soc s = true) :
    (process myDebug now soc s).2.countP Effect.isSleep = 1
      ∧ (process myDebug now soc s).2.getLast? = some (Effect.sleep s.pinInterrupt)
      ∧ (process myDebug now soc s).2.countP Effect.isZeroReport =
          (if (sendCondition now { s with level := soc } && decide (soc = 0)) = true
            then 2 else 1)
      ∧ (process myDebug now soc s).2.countP Effect.isReport =
          (if sendCondition now { s with level := soc } = true then 2 else 1) := by
  rw [process_effects, processSend_effects, hm, if_pos rfl]
  exact sleep_cycle_counts myDebug _ soc s.pinInterrupt

/-- Witness of C3 amended: the soft interval alone is outdated, the reading 10
equals the last sent level and is the third one below the limit 20. -/
theorem process_sleep_sequence_witness :
    cptReachesMax false 3000 10 lowSoftState = true
      ∧ ((process false 3000 10 lowSoftState).2.countP Effect.isSleep = 1
        ∧ (process false 3000 10 lowSoftState).2.getLast?
            = some (Effect.sleep lowSoftState.pinInterrupt)
        ∧ (process false 3000 10 lowSoftState).2.countP Effect.isZeroReport =
            (if (sendCondition 3000 { lowSoftState with level := 10 }
                  && decide ((10 : ℚ) = 0)) = true
              then 2 else 1)
        ∧ (process false 3000 10 lowSoftState).2.countP Effect.isReport =
            (if sendCondition 3000 { lowSoftState with level := 10 } = true
              then 2 else 1)) :=
  ⟨by decide, process_sleep_sequence false 3000 10 lowSoftState (by decide)⟩

/-! ## The data-sent flag -/

/-- C4 fails on the code: the monitor built at time 0 (intervals 1000 and 5000,
limit 20) and called at times 1000, 2000, 3000 with readings 10 sends, in its
third cycle, the zero level to the gateway (line 196) and leaves `isDataSent`
false. -/
theorem loop_sleep_report_without_dataSent :
    loopTrace false [(1000, 10), (2000, 10), (3000, 10)]
        (create 0 1000 5000 20 3 0 0 false)
      = [[Effect.getSOC, Effect.sendBatteryLevel 10 true],
         [Effect.getSOC],
         [Effect.getSOC, Effect.sendBatteryLevel 0 true, Effect.sleep 3]]
    ∧ (process false 3000 10 lowSoftState).2
      = [Effect.getSOC, Effect.sendBatteryLevel 0 true, Effect.sleep 3]
    ∧ (process false 3000 10 lowSoftState).1.isDataSent = false
    ∧ (loopStates false [(1000, 10), (2000, 10), (3000, 10)]
        (create 0 1000 5000 20 3 0 0 false)).isDataSent = false := by
  decide

/-! ## The low battery counter -/

/-- C5 as stated fails: a reading below the limit that is the third in a row
(maximum 3) leaves the counter at 0, not above its previous value 2. -/
theorem low_reading_counter_not_increased :
    (10 : ℚ) < lowSoftState.levelLimit
      ∧ lowSoftState.levelLimitSecurityCpt = 2
      ∧ (process false 3000 10 lowSoftState).1.levelLimitSecurityCpt = 0
      ∧ ¬ (lowSoftState.levelLimitSecurityCpt
            < (process false 3000 10 lowSoftState).1.levelLimitSecurityCpt) := by
  decide

/-- C5 amended: after a cycle of `process`, if the reading is below the limit
and the incremented counter stays below the maximum, the counter is one more
than before (strictly greater, the counter not being the largest
`unsigned int`); if the incremented counter reaches the maximum, the counter
is 0; if the reading is not below the limit, the counter is 0. -/
theorem process_cpt_update (myDebug : Bool) (now : Nat) (soc : ℚ)
    (s : MyBatteryMAX17043) :
    (soc < s.levelLimit → cptReachesMax myDebug now soc s = false →
        s.levelLimitSecurityCpt + 1 < uintModulus →
        (process myDebug now soc s).1.levelLimitSecurityCpt = s.levelLimitSecurityCpt + 1
          ∧ s.levelLimitSecurityCpt < (process myDebug now soc s).1.levelLimitSecurityCpt)
      ∧ (soc < s.levelLimit → cptReachesMax myDebug now soc s = true →
          (process myDebug now soc s).1.levelLimitSecurityCpt = 0)
      ∧ (¬ soc < s.levelLimit →
          (process myDebug now soc s).1.levelLimitSecurityCpt = 0) := by
  refine ⟨?_, ?_, ?_⟩
  · intro hlow hm hlt
    rw [process_cpt, hm]
    simp [hlow, Nat.mod_eq_of_lt hlt]
  · intro _ hm
    rw [process_cpt, hm]
    simp
  · intro hlow
    rw [process_cpt]
    simp [hlow]

/-- Witness of C5 amended: a first low reading counts 1, a third one (maximum
3) clears the counter, a reading above the limit clears the counter. -/
theorem process_cpt_update_witness :
    ((10 : ℚ) < (create 0 1000 5000 20 3 0 0 false).levelLimit
        ∧ cptReachesMax false 1000 10 (create 0 1000 5000 20 3 0 0 false) = false
        ∧ (create 0 1000 5000 20 3 0 0 false).levelLimitSecurityCpt + 1 < uintModulus
        ∧ (process false 1000 10
            (create 0 1000 5000 20 3 0 0 false)).1.levelLimitSecurityCpt = 0 + 1)
      ∧ ((10 : ℚ) < lowSoftState.levelLimit
        ∧ cptReachesMax false 3000 10 lowSoftState = true
        ∧ (process false 3000 10 lowSoftState).1.levelLimitSecurityCpt = 0)
      ∧ (¬ (50 : ℚ) < lowSoftState.levelLimit
        ∧ (process false 3000 50 lowSoftState).1.levelLimitSecurityCpt = 0) :=
  ⟨⟨by decide, by decide, by decide,
      ((process_cpt_update false 1000 10 (create 0 1000 5000 20 3 0 0 false)).1
        (by decide) (by decide) (by decide)).1⟩,
    ⟨by decide, by decide,
      (process_cpt_update false 3000 10 lowSoftState).2.1 (by decide) (by decide)⟩,
    ⟨by decide, (process_cpt_update false 3000 50 lowSoftState).2.2 (by decide)⟩⟩

/-- One cycle of `process` leaves the counter at most equal to the maximum,
whatever the state before. -/
theorem process_cpt_le_max (myDebug : Bool) (now : Nat) (soc : ℚ) (s : MyBatteryMAX17043) :
    (process myDebug now soc s).1.levelLimitSecurityCpt
      ≤ (process myDebug now soc s).1.levelLimitSecurityCptMax := by
  rw [process_cpt, process_cptMax]
  by_cases hm : cptReachesMax myDebug now soc s = true
  · simp [hm]
  · rw [if_neg hm]
    rw [cptReachesMax_eq] at hm
    simp only [decide_eq_true_eq, not_le] at hm
    exact le_of_lt hm

/-- One public operation keeps the counter at most equal to the maximum, when a
new maximum is at least the counter. -/
theorem applyOp_cpt_le_max (myDebug : Bool) (op : Op) (s : MyBatteryMAX17043)
    (hinv : s.levelLimitSecurityCpt ≤ s.levelLimitSecurityCptMax)
    (hop : ∀ m, op = Op.setLevelLimitSecurityCptMax m → s.levelLimitSecurityCpt ≤ m) :
    (applyOp myDebug op s).1.levelLimitSecurityCpt
      ≤ (applyOp myDebug op s).1.levelLimitSecurityCptMax := by
  cases op with
  | loop now soc =>
    simp only [applyOp, loop]
    split_ifs
    · exact process_cpt_le_max myDebug now soc s
    · exact hinv
    · exact hinv
  | setEnable e => exact hinv
  | bufferMoveForward i => exact hinv
  | setLevelLimitSecurityCptMax m => exact hop m rfl

/-- A guarded sequence of public operations keeps the counter at most equal to
the maximum. -/
theorem guarded_run_keeps_bound (myDebug : Bool) (ops : List Op) :
    ∀ s : MyBatteryMAX17043,
      s.levelLimitSecurityCpt ≤ s.levelLimitSecurityCptMax →
      cptMaxGuarded myDebug ops s = true →
      (run myDebug ops s).1.levelLimitSecurityCpt
        ≤ (run myDebug ops s).1.levelLimitSecurityCptMax := by
  induction ops with
  | nil => intro s hinv _; exact hinv
  | cons op ops ih =>
    intro s hinv hg
    simp only [run]
    cases op with
    | setLevelLimitSecurityCptMax m =>
      simp only [cptMaxGuarded, Bool.and_eq_true, decide_eq_true_eq] at hg
      refine ih _ (applyOp_cpt_le_max myDebug _ s hinv ?_) hg.2
      intro m' hm'
      cases hm'
      exact hg.1
    | loop now soc =>
      simp only [cptMaxGuarded] at hg
      exact ih _ (applyOp_cpt_le_max myDebug _ s hinv (by intro m hm; cases hm)) hg
    | setEnable e =>
      simp only [cptMaxGuarded] at hg
      exact ih _ (applyOp_cpt_le_max myDebug _ s hinv (by intro m hm; cases hm)) hg
    | bufferMoveForward i =>
      simp only [cptMaxGuarded] at hg
      exact ih _ (applyOp_cpt_le_max myDebug _ s hinv (by intro m hm; cases hm)) hg

/-! ## The counter never exceeds its maximum -/

/-- C6 as stated fails: after two low readings (counter 2, maximum 3), a call
of `setLevelLimitSecurityCptMax(1)` leaves the counter above the maximum. -/
theorem cpt_exceeds_max_after_setter :
    (run false [Op.loop 1000 10, Op.loop 2000 10, Op.setLevelLimitSecurityCptMax 1]
        (create 0 1000 5000 20 3 0 0 false)).1.levelLimitSecurityCpt = 2
      ∧ (run false [Op.loop 1000 10, Op.loop 2000 10, Op.setLevelLimitSecurityCptMax 1]
        (create 0 1000 5000 20 3 0 0 false)).1.levelLimitSecurityCptMax = 1 := by
  decide

/-- C6 amended: in every state reached from construction by a sequence of
`loop`, `setEnable`, `bufferMoveForward` and `setLevelLimitSecurityCptMax`
calls in which each new maximum is at least the counter at the time of the
call, the counter does not exceed the maximum. -/
theorem run_cpt_le_max (myDebug : Bool) (now intervalSend intervalSendForce : Nat)
    (limit : ℚ) (pinInterrupt : Nat) (level0 lastLevel0 : ℚ) (dataSent0 : Bool)
    (ops : List Op)
    (hg : cptMaxGuarded myDebug ops
      (create now intervalSend intervalSendForce limit pinInterrupt level0 lastLevel0
        dataSent0) = true) :
    (run myDebug ops
        (create now intervalSend intervalSendForce limit pinInterrupt level0 lastLevel0
          dataSent0)).1.levelLimitSecurityCpt
      ≤ (run myDebug ops
        (create now intervalSend intervalSendForce limit pinInterrupt level0 lastLevel0
          dataSent0)).1.levelLimitSecurityCptMax :=
  guarded_run_keeps_bound myDebug ops _ (Nat.zero_le _) hg

/-- Witness of C6 amended: two low readings, then the maximum is set to 2. -/
theorem run_cpt_le_max_witness :
    cptMaxGuarded false
        [Op.loop 1000 10, Op.loop 2000 10, Op.setLevelLimitSecurityCptMax 2]
        (create 0 1000 5000 20 3 0 0 false) = true
      ∧ (run false [Op.loop 1000 10, Op.loop 2000 10, Op.setLevelLimitSecurityCptMax 2]
          (create 0 1000 5000 20 3 0 0 false)).1.levelLimitSecurityCpt
        ≤ (run false [Op.loop 1000 10, Op.loop 2000 10, Op.setLevelLimitSecurityCptMax 2]
          (create 0 1000 5000 20 3 0 0 false)).1.levelLimitSecurityCptMax :=
  ⟨by decide, run_cpt_le_max false 0 1000 5000 20 3 0 0 false _ (by decide)⟩

/-! ## Calls of `loop` that do nothing -/

/-- A disabled monitor stays disabled, and emits nothing, through one public
operation other than `setEnable(true)`; `loop` leaves it unchanged. -/
theorem applyOp_disabled (myDebug : Bool) (op : Op) (s : MyBatteryMAX17043)
    (h : s.isEnable = false) (hop : op ≠ Op.setEnable true) :
    (applyOp myDebug op s).2 = []
      ∧ (applyOp myDebug op s).1.isEnable = false
      ∧ (applyOp myDebug op s).1.level = s.level
      ∧ (applyOp myDebug op s).1.lastLevel = s.lastLevel
      ∧ (applyOp myDebug op s).1.levelLimitSecurityCpt = s.levelLimitSecurityCpt
      ∧ (applyOp myDebug op s).1.dataSent = s.dataSent := by
  cases op with
  | loop now soc => simp [applyOp, loop, h]
  | setEnable e =>
    cases e with
    | true => exact absurd rfl hop
    | false => exact ⟨rfl, rfl, rfl, rfl, rfl, rfl⟩
  | bufferMoveForward i => exact ⟨rfl, h, rfl, rfl, rfl, rfl⟩
  | setLevelLimitSecurityCptMax m => exact ⟨rfl, h, rfl, rfl, rfl, rfl⟩

/-- A disabled monitor stays disabled, and emits nothing, through a sequence
of public operations without `setEnable(true)`. -/
theorem run_disabled (myDebug : Bool) (ops : List Op) :
    ∀ s : MyBatteryMAX17043, s.isEnable = false →
      (∀ op ∈ ops, op ≠ Op.setEnable true) →
      (run myDebug ops s).2 = []
        ∧ (run myDebug ops s).1.isEnable = false
        ∧ (run myDebug ops s).1.level = s.level
        ∧ (run myDebug ops s).1.lastLevel = s.lastLevel
        ∧ (run myDebug ops s).1.levelLimitSecurityCpt = s.levelLimitSecurityCpt
        ∧ (run myDebug ops s).1.dataSent = s.dataSent := by
  induction ops with
  | nil => intro s h _; exact ⟨rfl, h, rfl, rfl, rfl, rfl⟩
  | cons op ops ih =>
    intro s h hops
    have h1 := applyOp_disabled myDebug op s h (hops op (List.mem_cons_self _ _))
    have h2 := ih (applyOp myDebug op s).1 h1.2.1
      (fun o ho => hops o (List.mem_cons_of_mem _ ho))
    simp only [run]
    refine ⟨?_, h2.2.1, ?_, ?_, ?_, ?_⟩
    · rw [h1.1, h2.1]; rfl
    · rw [h2.2.2.1, h1.2.2.1]
    · rw [h2.2.2.2.1, h1.2.2.2.1]
    · rw [h2.2.2.2.2.1, h1.2.2.2.2.1]
    · rw [h2.2.2.2.2.2, h1.2.2.2.2.2]

/-- A disabled monitor is unchanged by a sequence of calls of `loop`. -/
theorem run_loops_disabled (myDebug : Bool) (ticks : List (Nat × ℚ)) :
    ∀ s : MyBatteryMAX17043, s.isEnable = false →
      run myDebug (ticks.map (fun t => Op.loop t.1 t.2)) s = (s, []) := by
  induction ticks with
  | nil => intro s _; rfl
  | cons t ticks ih =>
    intro s h
    have h1 : applyOp myDebug (Op.loop t.1 t.2) s = (s, []) := by
      simp [applyOp, loop, h]
    simp only [List.map_cons, run, h1, ih s h, List.append_nil]

/-- C7: on a monitor that is not enabled, whatever the timers and the clock,
`loop` returns the state unchanged and emits no effect; so does every sequence
of calls of `loop`; and along every sequence of public operations without
`setEnable(true)` the monitor stays disabled, no effect is emitted and the
levels, the counter and the data-sent flag keep their values. -/
theorem loop_disabled_noop (myDebug : Bool) (s : MyBatteryMAX17043)
    (h : s.isEnable = false) :
    (∀ now soc, loop myDebug now soc s = (s, []))
      ∧ (∀ ticks : List (Nat × ℚ),
          run myDebug (ticks.map (fun t => Op.loop t.1 t.2)) s = (s, []))
      ∧ (∀ ops : List Op, (∀ op ∈ ops, op ≠ Op.setEnable true) →
          (run myDebug ops s).2 = []
            ∧ (run myDebug ops s).1.isEnable = false
            ∧ (run myDebug ops s).1.level = s.level
            ∧ (run myDebug ops s).1.lastLevel = s.lastLevel
            ∧ (run myDebug ops s).1.levelLimitSecurityCpt = s.levelLimitSecurityCpt
            ∧ (run myDebug ops s).1.dataSent = s.dataSent) := by
  refine ⟨?_, ?_, ?_⟩
  · intro now soc
    simp [loop, h]
  · intro ticks
    exact run_loops_disabled myDebug ticks s h
  · intro ops hops
    exact run_disabled myDebug ops s h hops

/-- Witness of C7: the monitor with the soft interval outdated and a low
reading, once disabled, ignores `loop`, alone or among other operations. -/
theorem loop_disabled_noop_witness :
    (setEnable false lowSoftState).isEnable = false
      ∧ loop false 5000 10 (setEnable false lowSoftState)
          = (setEnable false lowSoftState, [])
      ∧ run false ([(5000, 10), (6000, 0)].map (fun t => Op.loop t.1 t.2))
          (setEnable false lowSoftState) = (setEnable false lowSoftState, [])
      ∧ (run false [Op.bufferMoveForward 100, Op.loop 5000 10,
            Op.setLevelLimitSecurityCptMax 1, Op.loop 6000 0]
          (setEnable false lowSoftState)).2 = [] :=
  ⟨by decide,
    (loop_disabled_noop false (setEnable false lowSoftState) (by decide)).1 5000 10,
    (loop_disabled_noop false (setEnable false lowSoftState) (by decide)).2.1
      [(5000, 10), (6000, 0)],
    ((loop_disabled_noop false (setEnable false lowSoftState) (by decide)).2.2
      [Op.bufferMoveForward 100, Op.loop 5000 10, Op.setLevelLimitSecurityCptMax 1,
        Op.loop 6000 0] (by decide)).1⟩

/-- C8: on a monitor of which neither the soft nor the forced interval is
outdated, `loop` returns the state unchanged and emits no effect (enabled or
not). -/
theorem loop_not_outdated_noop (myDebug : Bool) (now : Nat) (soc : ℚ)
    (s : MyBatteryMAX17043)
    (hs : s.intervalSend.isOutdated now = false)
    (hf : s.intervalSendForce.isOutdated now = false) :
    loop myDebug now soc s = (s, []) := by
  simp [loop, hs, hf]

/-- Witness of C8: an enabled monitor at time 2999, before both deadlines. -/
theorem loop_not_outdated_noop_witness :
    lowSoftState.isEnable = true
      ∧ lowSoftState.intervalSend.isOutdated 2999 = false
      ∧ lowSoftState.intervalSendForce.isOutdated 2999 = false
      ∧ loop false 2999 10 lowSoftState = (lowSoftState, []) :=
  ⟨by decide, by decide, by decide,
    loop_not_outdated_noop false 2999 10 lowSoftState (by decide) (by decide)⟩

/-! ## Resetting the intervals -/

/-- C9: after a cycle of `process`, each interval has been reset (deadline
`now` plus its own period, period unchanged) if it was itself outdated, and is
unchanged otherwise, whatever the state of the other interval. -/
theorem process_resets_outdated (myDebug : Bool) (now : Nat) (soc : ℚ)
    (s : MyBatteryMAX17043) :
    (process myDebug now soc s).1.intervalSend =
        (if s.intervalSend.isOutdated now = true
          then { period := s.intervalSend.period,
                 deadline := (now : Int) + (s.intervalSend.period : Int) }
          else s.intervalSend)
      ∧ (process myDebug now soc s).1.intervalSendForce =
        (if s.intervalSendForce.isOutdated now = true
          then { period := s.intervalSendForce.period,
                 deadline := (now : Int) + (s.intervalSendForce.period : Int) }
          else s.intervalSendForce) := by
  simp only [process, processSleep_intervalSend, processSleep_intervalSendForce,
    processCpt_intervalSend, processCpt_intervalSendForce, processReset_intervalSend,
    processReset_intervalSendForce, processSend_intervalSend,
    processSend_intervalSendForce, DataBuffer.reset, and_self]

/-! ## The scenario of spec 8 with the constructor of spec 4.1 -/

/-- At time 0 the scenario monitor has no outdated interval: `loop` does
nothing. -/
theorem scenario_first_tick (myDebug : Bool) (level0 lastLevel0 : ℚ) (dataSent0 : Bool) :
    loop myDebug 0 50 (scenarioMonitor level0 lastLevel0 dataSent0)
      = (scenarioMonitor level0 lastLevel0 dataSent0, []) := by
  have hs : (scenarioMonitor level0 lastLevel0 dataSent0).intervalSend.isOutdated 0
      = false := rfl
  have hf : (scenarioMonitor level0 lastLevel0 dataSent0).intervalSendForce.isOutdated 0
      = false := rfl
  simp [loop, hs, hf]

/-- At time 1000 the scenario monitor runs its first cycle and sends 50, when
the last level was not 50 at construction. -/
theorem scenario_second_tick (myDebug : Bool) (level0 lastLevel0 : ℚ) (dataSent0 : Bool)
    (h : lastLevel0 ≠ 50) :
    loop myDebug 1000 50 (scenarioMonitor level0 lastLevel0 dataSent0)
      = (scenarioAfterFirstCycle, Effect.getSOC :: sendLevelEffects myDebug 50) := by
  have hs : (scenarioMonitor level0 lastLevel0 dataSent0).intervalSend.isOutdated 1000
      = true := rfl
  have hf : (scenarioMonitor level0 lastLevel0 dataSent0).intervalSendForce.isOutdated 1000
      = false := rfl
  have hl : (scenarioMonitor level0 lastLevel0 dataSent0).lastLevel = lastLevel0 := rfl
  have hne : ¬ (50 : ℚ) = lastLevel0 := fun e => h e.symm
  have hlim : ¬ (50 : ℚ) < 20 := by norm_num
  simp only [loop, isEnable, process, processSend, sendCondition, sendLevel, processReset,
    processCpt, processSleep, hs, hf, hl]
  simp [hne, hlim, scenarioMonitor, create, setLevelLimitSecurityCptMax, DataBuffer.create,
    DataBuffer.reset, DataBuffer.isOutdated, scenarioAfterFirstCycle, sendLevelEffects]

/-- From the state after the first cycle, the calls at 2000, 3000 and 4000. -/
theorem scenario_last_ticks (myDebug : Bool) :
    (loopTrace myDebug [(2000, 50), (3000, 10), (4000, 10)] scenarioAfterFirstCycle).map
        reportsAndSleeps
      = [[], [Effect.sendBatteryLevel 10 true],
          [Effect.sendBatteryLevel 0 true, Effect.sleep 3]]
    ∧ (loopStates myDebug [(2000, 50), (3000, 10)]
        scenarioAfterFirstCycle).levelLimitSecurityCpt = 1
    ∧ cptReachesMax myDebug 4000 10
        (loopStates myDebug [(2000, 50), (3000, 10)] scenarioAfterFirstCycle) = true := by
  cases myDebug <;> decide

/-- With the constructor of spec 4.1 (first deadline = construction time +
period) no interval is outdated at time 0: for the monitor built at time 0
with soft interval 1000, forced interval 5000, limit 20 and counter maximum 2,
whose last level is not 50 at construction, called at times 0, 1000, 2000,
3000, 4000 with readings 50, 50, 50, 10, 10, nothing is sent at time 0, the
first report (of 50) is sent at time 1000, nothing is sent at time 2000, a
report of 10 is sent at time 3000 and leaves the counter at 1, and at time
4000 the counter reaches 2 and the cycle sends a zero-level report and calls
`sleep` once. -/
theorem scenario_trace_constructed (myDebug : Bool) (level0 lastLevel0 : ℚ) (dataSent0 : Bool)
    (h : lastLevel0 ≠ 50) :
    (loopTrace myDebug scenarioTicks (scenarioMonitor level0 lastLevel0 dataSent0)).map
        reportsAndSleeps
      = [[], [Effect.sendBatteryLevel 50 true], [], [Effect.sendBatteryLevel 10 true],
          [Effect.sendBatteryLevel 0 true, Effect.sleep 3]]
    ∧ (loopStates myDebug (scenarioTicks.take 4)
        (scenarioMonitor level0 lastLevel0 dataSent0)).levelLimitSecurityCpt = 1
    ∧ cptReachesMax myDebug 4000 10
        (loopStates myDebug (scenarioTicks.take 4)
          (scenarioMonitor level0 lastLevel0 dataSent0)) = true := by
  have h1 := scenario_first_tick myDebug level0 lastLevel0 dataSent0
  have h2 := scenario_second_tick myDebug level0 lastLevel0 dataSent0 h
  have h3 := scenario_last_ticks myDebug
  have hr : reportsAndSleeps (Effect.getSOC :: sendLevelEffects myDebug 50)
      = [Effect.sendBatteryLevel 50 true] := by
    cases myDebug <;> rfl
  have ht : scenarioTicks.take 4 = [(0, 50), (1000, 50), (2000, 50), (3000, 10)] := rfl
  obtain ⟨h3a, h3b, h3c⟩ := h3
  simp only [loopTrace, List.map_cons, List.map_nil] at h3a
  simp only [loopStates] at h3b h3c
  refine ⟨?_, ?_, ?_⟩
  · simp only [scenarioTicks, loopTrace, h1, h2, List.map_cons, List.map_nil, hr]
    rw [h3a]
    rfl
  · simp only [ht, loopStates, h1, h2]
    exact h3b
  · simp only [ht, loopStates, h1, h2]
    exact h3c

/-! ## The scenario of spec 8 -/

theorem process_intervalSend (myDebug : Bool) (now : Nat) (soc : ℚ) (s : MyBatteryMAX17043) :
    (process myDebug now soc s).1.intervalSend =
      if s.intervalSend.isOutdated now = true then s.intervalSend.reset now
      else s.intervalSend := by
  simp only [process, processSleep_intervalSend, processCpt_intervalSend,
    processReset_intervalSend, processSend_intervalSend]

theorem process_intervalSendForce (myDebug : Bool) (now : Nat) (soc : ℚ)
    (s : MyBatteryMAX17043) :
    (process myDebug now soc s).1.intervalSendForce =
      if s.intervalSendForce.isOutdated now = true then s.intervalSendForce.reset now
      else s.intervalSendForce := by
  simp only [process, processSleep_intervalSendForce, processCpt_intervalSendForce,
    processReset_intervalSendForce, processSend_intervalSendForce]

/-- A timer reset at a time not after `now` has its deadline at most one
period after `now`; a timer left alone keeps its bound. -/
theorem reset_or_keep_bound (b : DataBuffer) (c : Bool) (t now : Nat) (ht : t ≤ now)
    (hb : b.deadline ≤ (now : Int) + (b.period : Int)) :
    (if c = true then b.reset t else b).deadline
      ≤ (now : Int) + ((if c = true then b.reset t else b).period : Int) := by
  cases c
  · simpa using hb
  · simp only [if_true, DataBuffer.reset]
    have : (t : Int) ≤ (now : Int) := Int.ofNat_le.mpr ht
    omega

/-- One public operation, run at a time not after `now`, keeps both deadlines
at most one period after `now`. -/
theorem applyOp_deadline_bound (myDebug : Bool) (op : Op) (s : MyBatteryMAX17043) (now : Nat)
    (hop : ∀ t soc, op = Op.loop t soc → t ≤ now)
    (hS : s.intervalSend.deadline ≤ (now : Int) + (s.intervalSend.period : Int))
    (hF : s.intervalSendForce.deadline ≤ (now : Int) + (s.intervalSendForce.period : Int)) :
    (applyOp myDebug op s).1.intervalSend.deadline
        ≤ (now : Int) + ((applyOp myDebug op s).1.intervalSend.period : Int)
      ∧ (applyOp myDebug op s).1.intervalSendForce.deadline
        ≤ (now : Int) + ((applyOp myDebug op s).1.intervalSendForce.period : Int) := by
  cases op with
  | loop t soc =>
    have ht : t ≤ now := hop t soc rfl
    simp only [applyOp, loop]
    split_ifs
    · rw [process_intervalSend, process_intervalSendForce]
      exact ⟨reset_or_keep_bound _ _ t now ht hS, reset_or_keep_bound _ _ t now ht hF⟩
    · exact ⟨hS, hF⟩
    · exact ⟨hS, hF⟩
  | setEnable e => exact ⟨hS, hF⟩
  | bufferMoveForward i =>
    simp only [applyOp, bufferMoveForward, DataBuffer.moveForward]
    constructor <;> omega
  | setLevelLimitSecurityCptMax m => exact ⟨hS, hF⟩

/-- A sequence of public operations, all run at times not after `now`, keeps
both deadlines at most one period after `now`. -/
theorem run_deadline_bound (myDebug : Bool) (now : Nat) (ops : List Op) :
    ∀ s : MyBatteryMAX17043,
      (∀ t soc, Op.loop t soc ∈ ops → t ≤ now) →
      s.intervalSend.deadline ≤ (now : Int) + (s.intervalSend.period : Int) →
      s.intervalSendForce.deadline ≤ (now : Int) + (s.intervalSendForce.period : Int) →
      (run myDebug ops s).1.intervalSend.deadline
          ≤ (now : Int) + ((run myDebug ops s).1.intervalSend.period : Int)
        ∧ (run myDebug ops s).1.intervalSendForce.deadline
          ≤ (now : Int) + ((run myDebug ops s).1.intervalSendForce.period : Int) := by
  induction ops with
  | nil => intro s _ hS hF; exact ⟨hS, hF⟩
  | cons op ops ih =>
    intro s hops hS hF
    have h1 := applyOp_deadline_bound myDebug op s now
      (fun t soc e => hops t soc (e ▸ List.mem_cons_self _ _)) hS hF
    exact ih (applyOp myDebug op s).1
      (fun t soc hmem => hops t soc (List.mem_cons_of_mem _ hmem)) h1.1 h1.2

/-- C11: for every monitor reached from construction by public operations, at
a current time `now` not before the construction nor before any earlier call
of `loop`, `bufferMoveForward` with the period of the soft interval makes the
soft interval outdated at `now`, and with the period of the forced interval
makes the forced interval outdated at `now` (whether or not the interval was
outdated before). -/
theorem bufferMoveForward_period_outdates (myDebug : Bool)
    (now0 intervalSend intervalSendForce : Nat) (limit : ℚ) (pinInterrupt : Nat)
    (level0 lastLevel0 : ℚ) (dataSent0 : Bool) (ops : List Op) (now : Nat)
    (h0 : now0 ≤ now) (hops : ∀ t soc, Op.loop t soc ∈ ops → t ≤ now) :
    (bufferMoveForward
        (run myDebug ops (create now0 intervalSend intervalSendForce limit pinInterrupt
          level0 lastLevel0 dataSent0)).1.intervalSend.period
        (run myDebug ops (create now0 intervalSend intervalSendForce limit pinInterrupt
          level0 lastLevel0 dataSent0)).1).intervalSend.isOutdated now = true
      ∧ (bufferMoveForward
        (run myDebug ops (create now0 intervalSend intervalSendForce limit pinInterrupt
          level0 lastLevel0 dataSent0)).1.intervalSendForce.period
        (run myDebug ops (create now0 intervalSend intervalSendForce limit pinInterrupt
          level0 lastLevel0 dataSent0)).1).intervalSendForce.isOutdated now = true := by
  have h0i : (now0 : Int) ≤ (now : Int) := Int.ofNat_le.mpr h0
  have hb := run_deadline_bound myDebug now ops
    (create now0 intervalSend intervalSendForce limit pinInterrupt level0 lastLevel0
      dataSent0) hops
    (by simp only [create, DataBuffer.create]; omega)
    (by simp only [create, DataBuffer.create]; omega)
  simp only [bufferMoveForward, DataBuffer.moveForward, DataBuffer.isOutdated,
    decide_eq_true_eq]
  constructor
  · have := hb.1; omega
  · have := hb.2; omega

/-- Witness of C11: the monitor built at time 0 with intervals 1000 and 5000,
after a call of `loop` at time 1000, looked at at time 1500: no interval is
outdated, and each becomes outdated when moved forward by its period. -/
theorem bufferMoveForward_period_outdates_witness :
    (run false [Op.loop 1000 50]
        (create 0 1000 5000 20 3 0 0 false)).1.intervalSend.isOutdated 1500 = false
      ∧ (run false [Op.loop 1000 50]
        (create 0 1000 5000 20 3 0 0 false)).1.intervalSendForce.isOutdated 1500 = false
      ∧ (bufferMoveForward
          (run false [Op.loop 1000 50]
            (create 0 1000 5000 20 3 0 0 false)).1.intervalSend.period
          (run false [Op.loop 1000 50]
            (create 0 1000 5000 20 3 0 0 false)).1).intervalSend.isOutdated 1500 = true
      ∧ (bufferMoveForward
          (run false [Op.loop 1000 50]
            (create 0 1000 5000 20 3 0 0 false)).1.intervalSendForce.period
          (run false [Op.loop 1000 50]
            (create 0 1000 5000 20 3 0 0 false)).1).intervalSendForce.isOutdated 1500
          = true :=
  ⟨by decide, by decide,
    bufferMoveForward_period_outdates false 0 1000 5000 20 3 0 0 false [Op.loop 1000 50]
      1500 (by decide) (by
        intro t soc hmem
        simp only [List.mem_singleton, Op.loop.injEq] at hmem
        omega)⟩

/-! ## The levels after a cycle -/

section Levels

variable (myDebug : Bool) (now : Nat) (soc : ℚ) (s : MyBatteryMAX17043)

theorem processSend_lastLevel :
    (processSend myDebug now soc s).1.lastLevel =
      if sendCondition now { s with level := soc } = true then soc else s.lastLevel := by
  simp only [processSend, sendLevel, sendCondition]; split_ifs <;> rfl

theorem processReset_lastLevel : (processReset now s).lastLevel = s.lastLevel := by
  simp only [processReset]; split_ifs <;> rfl

theorem processCpt_lastLevel : (processCpt s).lastLevel = s.lastLevel := by
  simp only [processCpt]; split_ifs <;> rfl

theorem processCpt_level : (processCpt s).level = s.level := by
  simp only [processCpt]; split_ifs <;> rfl

theorem processCpt_levelLimit : (processCpt s).levelLimit = s.levelLimit := by
  simp only [processCpt]; split_ifs <;> rfl

theorem processSleep_lastLevel :
    (processSleep myDebug s).1.lastLevel =
      if s.levelLimitSecurityCptMax ≤ s.levelLimitSecurityCpt then 0 else s.lastLevel := by
  simp only [processSleep, sendLevel]; split_ifs <;> rfl

theorem processSleep_level :
    (processSleep myDebug s).1.level =
      if s.levelLimitSecurityCptMax ≤ s.levelLimitSecurityCpt then 0 else s.level := by
  simp only [processSleep, sendLevel]; split_ifs <;> rfl

theorem processSleep_levelLimit :
    (processSleep myDebug s).1.levelLimit = s.levelLimit := by
  simp only [processSleep, sendLevel]; split_ifs <;> rfl

theorem process_lastLevel :
    (process myDebug now soc s).1.lastLevel =
      if cptReachesMax myDebug now soc s = true then 0
      else (if sendCondition now { s with level := soc } = true then soc
            else s.lastLevel) := by
  unfold process cptReachesMax
  simp only [processSleep_lastLevel, processCpt_lastLevel, processReset_lastLevel,
    processSend_lastLevel, decide_eq_true_eq]

theorem process_level :
    (process myDebug now soc s).1.level =
      if cptReachesMax myDebug now soc s = true then 0 else soc := by
  unfold process cptReachesMax
  simp only [processSleep_level, processCpt_level, processReset_level, processSend_level,
    decide_eq_true_eq]

theorem process_levelLimit :
    (process myDebug now soc s).1.levelLimit = s.levelLimit := by
  unfold process
  simp only [processSleep_levelLimit, processCpt_levelLimit, processReset_levelLimit,
    processSend_levelLimit]

end Levels

/-! ## The data-sent flag after `loop` -/

/-- C12 fails on the code: the monitor built at time 0 (intervals 1000 and
5000, limit 20) sends 50 in the call of `loop` at time 1000; the call at time
1500 does no processing and sends nothing, and `isDataSent` is still true
after it. -/
theorem loop_idle_keeps_dataSent :
    loopTrace false [(1000, 50), (1500, 50)] (create 0 1000 5000 20 3 0 0 false)
      = [[Effect.getSOC, Effect.sendBatteryLevel 50 true], []]
    ∧ (loopStates false [(1000, 50), (1500, 50)]
        (create 0 1000 5000 20 3 0 0 false)).isDataSent = true := by
  decide

/-! ## Sleeping only on a low reading -/

/-- The sending phase of a cycle never calls `sleep`. -/
theorem processSend_no_sleep (myDebug : Bool) (now : Nat) (soc : ℚ) (s : MyBatteryMAX17043) :
    (processSend myDebug now soc s).2.filter Effect.isSleep = [] := by
  rw [processSend_effects]
  cases myDebug <;> split_ifs <;> rfl

/-- C13 as stated fails: once `setLevelLimitSecurityCptMax(0)` has been
called, a cycle whose reading 50 is not below the limit 20 calls `sleep`. -/
theorem sleep_with_reading_above_limit :
    ¬ ((50 : ℚ) < (setLevelLimitSecurityCptMax 0
          (create 0 1000 5000 20 3 0 0 false)).levelLimit)
      ∧ (process false 1000 50
          (setLevelLimitSecurityCptMax 0 (create 0 1000 5000 20 3 0 0 false))).2
        = [Effect.getSOC, Effect.sendBatteryLevel 50 true, Effect.sendBatteryLevel 0 true,
            Effect.sleep 3] := by
  decide

/-- C13 amended: for every limit and every counter maximum of at least 1, a
cycle of `process` calls `sleep` only if the reading of that cycle is below
the limit. -/
theorem process_sleep_only_if_low (myDebug : Bool) (now : Nat) (soc : ℚ)
    (s : MyBatteryMAX17043) (hmax : 1 ≤ s.levelLimitSecurityCptMax)
    (hsleep : ∃ e ∈ (process myDebug now soc s).2, e.isSleep = true) :
    soc < s.levelLimit := by
  by_contra hlow
  have hm : cptReachesMax myDebug now soc s = false := by
    rw [cptReachesMax_eq, if_neg hlow]
    simp only [decide_eq_false_iff_not, not_le]
    omega
  obtain ⟨e, he, hs⟩ := hsleep
  rw [process_effects, hm] at he
  simp only [Bool.false_eq_true, if_false, List.append_nil] at he
  have hmem : e ∈ (processSend myDebug now soc s).2.filter Effect.isSleep :=
    List.mem_filter.mpr ⟨he, hs⟩
  rw [processSend_no_sleep] at hmem
  exact absurd hmem (List.not_mem_nil e)

/-- Witness of C13 amended: the third low reading in a row (maximum 3) makes
the cycle sleep, and that reading 10 is below the limit 20. -/
theorem process_sleep_only_if_low_witness :
    1 ≤ lowSoftState.levelLimitSecurityCptMax
      ∧ (∃ e ∈ (process false 3000 10 lowSoftState).2, e.isSleep = true)
      ∧ (10 : ℚ) < lowSoftState.levelLimit :=
  ⟨by decide, by decide,
    process_sleep_only_if_low false 3000 10 lowSoftState (by decide) (by decide)⟩

/-! ## The ordinary report -/

/-- The reports among the effects of the sending phase: the reading when the
condition of lines 169-172 holds, nothing otherwise. -/
theorem processSend_reports (myDebug : Bool) (now : Nat) (soc : ℚ) (s : MyBatteryMAX17043) :
    (processSend myDebug now soc s).2.filter Effect.isReport =
      if sendCondition now { s with level := soc } = true
      then [Effect.sendBatteryLevel soc true] else [] := by
  rw [processSend_effects]
  cases myDebug <;> split_ifs <;> rfl

/-- C14: in every cycle of `process` that does not reach the counter maximum
(no sleep sequence): if the send condition holds, the last level after the
cycle is the reading and the reports of the cycle are exactly one report of
that reading with acknowledgement requested; if it does not hold, the last
level is unchanged and the cycle sends no report. -/
theorem process_report_and_lastLevel (myDebug : Bool) (now : Nat) (soc : ℚ)
    (s : MyBatteryMAX17043) (hm : cptReachesMax myDebug now soc s = false) :
    (sendCondition now { s with level := soc } = true →
        (process myDebug now soc s).1.lastLevel = soc
          ∧ (process myDebug now soc s).2.filter Effect.isReport
              = [Effect.sendBatteryLevel soc true])
      ∧ (sendCondition now { s with level := soc } = false →
        (process myDebug now soc s).1.lastLevel = s.lastLevel
          ∧ (process myDebug now soc s).2.filter Effect.isReport = []) := by
  have he : (process myDebug now soc s).2 = (processSend myDebug now soc s).2 := by
    rw [process_effects, hm]
    simp
  rw [he, processSend_reports, process_lastLevel, hm]
  constructor
  · intro hc
    simp [hc]
  · intro hc
    simp [hc]

/-- Witness of C14: a changed reading 50 with the soft interval outdated is
sent and recorded; an unchanged reading 50 is not sent. -/
theorem process_report_and_lastLevel_witness :
    (cptReachesMax false 3000 50 lowSoftState = false
        ∧ sendCondition 3000 { lowSoftState with level := 50 } = true
        ∧ (process false 3000 50 lowSoftState).1.lastLevel = 50
        ∧ (process false 3000 50 lowSoftState).2.filter Effect.isReport
            = [Effect.sendBatteryLevel 50 true])
      ∧ (cptReachesMax false 2000 50 scenarioAfterFirstCycle = false
        ∧ sendCondition 2000 { scenarioAfterFirstCycle with level := 50 } = false
        ∧ (process false 2000 50 scenarioAfterFirstCycle).1.lastLevel
            = scenarioAfterFirstCycle.lastLevel
        ∧ (process false 2000 50 scenarioAfterFirstCycle).2.filter Effect.isReport = []) :=
  ⟨⟨by decide, by decide,
      (process_report_and_lastLevel false 3000 50 lowSoftState (by decide)).1 (by decide)⟩,
    ⟨by decide, by decide,
      (process_report_and_lastLevel false 2000 50 scenarioAfterFirstCycle (by decide)).2
        (by decide)⟩⟩

/-! ## The frame of `bufferMoveForward` -/

/-- C15: `bufferMoveForward(increment)` moves the soft and the forced interval
forward by the same `increment`, leaves every other field unchanged and emits
no effect; with an increment of 0 the whole state is unchanged. -/
theorem bufferMoveForward_frame (myDebug : Bool) (increment : Nat) (s : MyBatteryMAX17043) :
    (bufferMoveForward increment s).intervalSend = s.intervalSend.moveForward increment
      ∧ (bufferMoveForward increment s).intervalSendForce
          = s.intervalSendForce.moveForward increment
      ∧ (bufferMoveForward increment s).enable = s.enable
      ∧ (bufferMoveForward increment s).level = s.level
      ∧ (bufferMoveForward increment s).lastLevel = s.lastLevel
      ∧ (bufferMoveForward increment s).levelLimit = s.levelLimit
      ∧ (bufferMoveForward increment s).levelLimitSecurityCpt = s.levelLimitSecurityCpt
      ∧ (bufferMoveForward increment s).levelLimitSecurityCptMax
          = s.levelLimitSecurityCptMax
      ∧ (bufferMoveForward increment s).dataSent = s.dataSent
      ∧ (bufferMoveForward increment s).pinInterrupt = s.pinInterrupt
      ∧ (applyOp myDebug (Op.bufferMoveForward increment) s).2 = []
      ∧ bufferMoveForward 0 s = s := by
  refine ⟨rfl, rfl, rfl, rfl, rfl, rfl, rfl, rfl, rfl, rfl, rfl, ?_⟩
  simp [bufferMoveForward, DataBuffer.moveForward]

/-! ## The state after the sleep sequence -/

/-- C18: after every cycle of `process` in which the counter reaches its
maximum, the counter is 0, the level is 0 and the last level is 0, while
`isDataSent` is the outcome of the send condition of lines 169-172 for that
cycle: the zero-level report of line 196 does not set it. -/
theorem process_state_after_sleep (myDebug : Bool) (now : Nat) (soc : ℚ)
    (s : MyBatteryMAX17043) (hm : cptReachesMax myDebug now soc s = true) :
    (process myDebug now soc s).1.levelLimitSecurityCpt = 0
      ∧ (process myDebug now soc s).1.level = 0
      ∧ (process myDebug now soc s).1.lastLevel = 0
      ∧ (process myDebug now soc s).1.isDataSent
          = sendCondition now { s with level := soc }
      ∧ Effect.sendBatteryLevel 0 true ∈ (process myDebug now soc s).2 := by
  refine ⟨?_, ?_, ?_, ?_, ?_⟩
  · rw [process_cpt, hm]; rfl
  · rw [process_level, hm]; rfl
  · rw [process_lastLevel, hm]; rfl
  · rw [isDataSent, process_dataSent, sendCondition_level]
  · rw [process_effects, hm]
    cases myDebug <;> simp [sleepEffects, sendLevelEffects]

/-- Witness of C18: the third low reading in a row, equal to the last level,
with the soft interval alone outdated: the zero level is sent and the flag is
false. -/
theorem process_state_after_sleep_witness :
    cptReachesMax false 3000 10 lowSoftState = true
      ∧ sendCondition 3000 { lowSoftState with level := 10 } = false
      ∧ ((process false 3000 10 lowSoftState).1.levelLimitSecurityCpt = 0
        ∧ (process false 3000 10 lowSoftState).1.level = 0
        ∧ (process false 3000 10 lowSoftState).1.lastLevel = 0
        ∧ (process false 3000 10 lowSoftState).1.isDataSent
            = sendCondition 3000 { lowSoftState with level := 10 }
        ∧ Effect.sendBatteryLevel 0 true ∈ (process false 3000 10 lowSoftState).2) :=
  ⟨by decide, by decide,
    process_state_after_sleep false 3000 10 lowSoftState (by decide)⟩

/-! ## The counter and the trailing run of low readings -/

theorem processStates_append (myDebug : Bool) (cycles : List (Nat × ℚ)) (now : Nat) (soc : ℚ) :
    ∀ s : MyBatteryMAX17043,
      processStates myDebug (cycles ++ [(now, soc)]) s
        = (process myDebug now soc (processStates myDebug cycles s)).1 := by
  induction cycles with
  | nil => intro s; rfl
  | cons c cycles ih =>
    intro s
    obtain ⟨t, r⟩ := c
    simp only [List.cons_append, processStates]
    exact ih _

theorem processStates_cptMax (myDebug : Bool) (cycles : List (Nat × ℚ)) :
    ∀ s : MyBatteryMAX17043,
      (processStates myDebug cycles s).levelLimitSecurityCptMax
        = s.levelLimitSecurityCptMax := by
  induction cycles with
  | nil => intro s; rfl
  | cons c cycles ih =>
    intro s
    obtain ⟨t, r⟩ := c
    simp only [processStates]
    rw [ih, process_cptMax]

theorem processStates_levelLimit (myDebug : Bool) (cycles : List (Nat × ℚ)) :
    ∀ s : MyBatteryMAX17043,
      (processStates myDebug cycles s).levelLimit = s.levelLimit := by
  induction cycles with
  | nil => intro s; rfl
  | cons c cycles ih =>
    intro s
    obtain ⟨t, r⟩ := c
    simp only [processStates]
    rw [ih, process_levelLimit]

theorem trailingLow_nil (limit : ℚ) : trailingLow limit [] = 0 := rfl

theorem trailingLow_append (limit : ℚ) (readings : List ℚ) (r : ℚ) :
    trailingLow limit (readings ++ [r])
      = if r < limit then trailingLow limit readings + 1 else 0 := by
  unfold trailingLow
  rw [List.reverse_append, List.reverse_singleton, List.singleton_append,
    List.takeWhile_cons]
  by_cases h : r < limit
  · simp [h]
  · simp [h]

/-- A cycle calls `sleep` exactly when the counter reaches its maximum. -/
theorem process_sleeps_iff (myDebug : Bool) (now : Nat) (soc : ℚ) (s : MyBatteryMAX17043) :
    (∃ e ∈ (process myDebug now soc s).2, e.isSleep = true)
      ↔ cptReachesMax myDebug now soc s = true := by
  constructor
  · rintro ⟨e, he, hs⟩
    by_contra hm
    rw [process_effects, if_neg hm, List.append_nil] at he
    have hmem : e ∈ (processSend myDebug now soc s).2.filter Effect.isSleep :=
      List.mem_filter.mpr ⟨he, hs⟩
    rw [processSend_no_sleep] at hmem
    exact absurd hmem (List.not_mem_nil e)
  · intro hm
    refine ⟨Effect.sleep s.pinInterrupt, ?_, rfl⟩
    rw [process_effects, hm]
    cases myDebug <;> simp [sleepEffects, sendLevelEffects]

/-- One cycle from a counter equal to `n % m`, with `n` the trailing run so
far: the new counter and whether the maximum is reached. -/
theorem process_cpt_mod_step (myDebug : Bool) (now : Nat) (soc : ℚ) (s : MyBatteryMAX17043)
    (m n : Nat) (hm1 : 1 ≤ m) (hm2 : m < uintModulus)
    (hmax : s.levelLimitSecurityCptMax = m) (hcpt : s.levelLimitSecurityCpt = n % m) :
    (process myDebug now soc s).1.levelLimitSecurityCpt
        = (if soc < s.levelLimit then n + 1 else 0) % m
      ∧ (cptReachesMax myDebug now soc s = true
          ↔ (0 < (if soc < s.levelLimit then n + 1 else 0)
              ∧ (if soc < s.levelLimit then n + 1 else 0) % m = 0)) := by
  have hlt : n % m < m := Nat.mod_lt n (by omega)
  have hstep : (n + 1) % m = (n % m + 1) % m := (Nat.mod_add_mod n m 1).symm
  rw [process_cpt, cptReachesMax_eq, hmax, hcpt]
  by_cases hlow : soc < s.levelLimit
  · simp only [hlow, if_true, decide_eq_true_eq]
    have hM : (n % m + 1) % uintModulus = n % m + 1 := Nat.mod_eq_of_lt (by omega)
    rw [hM, hstep]
    by_cases heq : n % m + 1 = m
    · rw [heq, Nat.mod_self]
      simp
    · have hlt2 : n % m + 1 < m := by omega
      rw [Nat.mod_eq_of_lt hlt2]
      refine ⟨if_neg (by omega), ?_⟩
      constructor
      · intro h
        omega
      · rintro ⟨_, h⟩
        omega
  · simp only [hlow, if_false, decide_eq_true_eq]
    have hnle : ¬ m ≤ 0 := by omega
    simp [hnle]

/-- After any sequence of cycles from a counter of 0, the counter is the
trailing run of low readings modulo the maximum. -/
theorem processStates_cpt_mod (myDebug : Bool) (m : Nat) (s : MyBatteryMAX17043)
    (hm1 : 1 ≤ m) (hm2 : m < uintModulus)
    (hmax : s.levelLimitSecurityCptMax = m) (hcpt : s.levelLimitSecurityCpt = 0)
    (cycles : List (Nat × ℚ)) :
    (processStates myDebug cycles s).levelLimitSecurityCpt
      = trailingLow s.levelLimit (cycles.map Prod.snd) % m := by
  induction cycles using List.reverseRecOn with
  | nil => simp [processStates, trailingLow_nil, hcpt]
  | append_singleton cycles c ih =>
    obtain ⟨t, r⟩ := c
    rw [processStates_append, List.map_append, List.map_singleton, trailingLow_append]
    have h := (process_cpt_mod_step myDebug t r (processStates myDebug cycles s) m
      (trailingLow s.levelLimit (cycles.map Prod.snd)) hm1 hm2
      (by rw [processStates_cptMax, hmax]) ih).1
    rw [processStates_levelLimit] at h
    exact h

/-- C16: for every counter maximum `m` with `1 ≤ m` (an `unsigned int`) and
every sequence of cycles of `process` run from a state whose counter is 0,
after each cycle the counter equals the length of the trailing run of
readings below the limit, modulo `m`, and the cycle calls `sleep` exactly when
that length is a positive multiple of `m`. -/
theorem cpt_follows_trailing_run (myDebug : Bool) (m : Nat) (s : MyBatteryMAX17043)
    (cycles : List (Nat × ℚ)) (now : Nat) (soc : ℚ)
    (hm1 : 1 ≤ m) (hm2 : m < uintModulus)
    (hmax : s.levelLimitSecurityCptMax = m) (hcpt : s.levelLimitSecurityCpt = 0) :
    (processStates myDebug (cycles ++ [(now, soc)]) s).levelLimitSecurityCpt
        = trailingLow s.levelLimit ((cycles ++ [(now, soc)]).map Prod.snd) % m
      ∧ ((∃ e ∈ (process myDebug now soc (processStates myDebug cycles s)).2,
            e.isSleep = true)
          ↔ (0 < trailingLow s.levelLimit ((cycles ++ [(now, soc)]).map Prod.snd)
              ∧ trailingLow s.levelLimit ((cycles ++ [(now, soc)]).map Prod.snd) % m = 0)) := by
  refine ⟨processStates_cpt_mod myDebug m s hm1 hm2 hmax hcpt _, ?_⟩
  have h := (process_cpt_mod_step myDebug now soc (processStates myDebug cycles s) m
    (trailingLow s.levelLimit (cycles.map Prod.snd)) hm1 hm2
    (by rw [processStates_cptMax, hmax])
    (processStates_cpt_mod myDebug m s hm1 hm2 hmax hcpt cycles)).2
  rw [processStates_levelLimit] at h
  rw [process_sleeps_iff, List.map_append, List.map_singleton, trailingLow_append]
  exact h

/-- Witness of C16: maximum 2, readings 50, 10, 10 from a counter of 0: the
trailing run is 2 after the third cycle, the counter is 0 and the cycle
sleeps. -/
theorem cpt_follows_trailing_run_witness :
    1 ≤ 2 ∧ 2 < uintModulus
      ∧ scenarioAfterFirstCycle.levelLimitSecurityCptMax = 2
      ∧ scenarioAfterFirstCycle.levelLimitSecurityCpt = 0
      ∧ ((processStates false ([(2000, 50), (3000, 10)] ++ [(4000, 10)])
            scenarioAfterFirstCycle).levelLimitSecurityCpt
          = trailingLow scenarioAfterFirstCycle.levelLimit
              (([(2000, 50), (3000, 10)] ++ [(4000, 10)] : List (Nat × ℚ)).map Prod.snd) % 2
        ∧ ((∃ e ∈ (process false 4000 10
                (processStates false [(2000, 50), (3000, 10)] scenarioAfterFirstCycle)).2,
              e.isSleep = true)
            ↔ (0 < trailingLow scenarioAfterFirstCycle.levelLimit
                  (([(2000, 50), (3000, 10)] ++ [(4000, 10)] : List (Nat × ℚ)).map Prod.snd)
                ∧ trailingLow scenarioAfterFirstCycle.levelLimit
                  (([(2000, 50), (3000, 10)] ++ [(4000, 10)] : List (Nat × ℚ)).map Prod.snd) % 2 = 0))) :=
  ⟨by decide, by decide, rfl, rfl,
    cpt_follows_trailing_run false 2 scenarioAfterFirstCycle [(2000, 50), (3000, 10)]
      4000 10 (by decide) (by decide) rfl rfl⟩

/-! ## The default limit -/

/-- With limit 0, a counter maximum of at least 1 and a counter of 0, a call
of `loop` with a reading that is not negative leaves the counter at 0 and its
effects are those of the sending phase, or none. -/
theorem loop_default_limit_step (myDebug : Bool) (now : Nat) (soc : ℚ)
    (s : MyBatteryMAX17043) (hlim : s.levelLimit = 0)
    (hmax : 1 ≤ s.levelLimitSecurityCptMax) (hcpt : s.levelLimitSecurityCpt = 0)
    (hsoc : 0 ≤ soc) :
    ((loop myDebug now soc s).1.levelLimit = 0
        ∧ 1 ≤ (loop myDebug now soc s).1.levelLimitSecurityCptMax
        ∧ (loop myDebug now soc s).1.levelLimitSecurityCpt = 0)
      ∧ ((loop myDebug now soc s).2 = []
          ∨ (loop myDebug now soc s).2 = (processSend myDebug now soc s).2) := by
  have hlow : ¬ soc < s.levelLimit := by rw [hlim]; exact not_lt.mpr hsoc
  have hm : cptReachesMax myDebug now soc s = false := by
    rw [cptReachesMax_eq, if_neg hlow]
    simp only [decide_eq_false_iff_not, not_le]
    omega
  simp only [loop]
  split_ifs
  · refine ⟨⟨?_, ?_, ?_⟩, Or.inr ?_⟩
    · rw [process_levelLimit, hlim]
    · rw [process_cptMax]; exact hmax
    · rw [process_cpt, hm, if_neg hlow]; rfl
    · rw [process_effects, hm]; simp
  · exact ⟨⟨hlim, hmax, hcpt⟩, Or.inl rfl⟩
  · exact ⟨⟨hlim, hmax, hcpt⟩, Or.inl rfl⟩

/-- The effects of a call of `loop` under the conditions of
`loop_default_limit_step`: no sleep, and no report but one of the reading. -/
theorem loop_default_limit_effects (myDebug : Bool) (now : Nat) (soc : ℚ)
    (s : MyBatteryMAX17043)
    (h : (loop myDebug now soc s).2 = []
      ∨ (loop myDebug now soc s).2 = (processSend myDebug now soc s).2) :
    (loop myDebug now soc s).2.filter Effect.isSleep = []
      ∧ ((loop myDebug now soc s).2.filter Effect.isReport = []
          ∨ (loop myDebug now soc s).2.filter Effect.isReport
              = [Effect.sendBatteryLevel soc true]) := by
  rcases h with h | h
  · rw [h]; exact ⟨rfl, Or.inl rfl⟩
  · rw [h, processSend_no_sleep, processSend_reports]
    refine ⟨rfl, ?_⟩
    split_ifs
    · exact Or.inr rfl
    · exact Or.inl rfl

/-- Along calls of `loop` with readings that are not negative, from a state
with limit 0, a counter maximum of at least 1 and a counter of 0. -/
theorem loops_default_limit (myDebug : Bool) (ticks : List (Nat × ℚ)) :
    ∀ s : MyBatteryMAX17043, s.levelLimit = 0 → 1 ≤ s.levelLimitSecurityCptMax →
      s.levelLimitSecurityCpt = 0 → (∀ t ∈ ticks, (0 : ℚ) ≤ t.2) →
      (loopStates myDebug ticks s).levelLimitSecurityCpt = 0
        ∧ (∀ effects ∈ loopTrace myDebug ticks s, effects.filter Effect.isSleep = [])
        ∧ (∀ p ∈ ticks.zip (loopTrace myDebug ticks s),
            p.2.filter Effect.isReport = []
              ∨ p.2.filter Effect.isReport = [Effect.sendBatteryLevel p.1.2 true]) := by
  induction ticks with
  | nil =>
    intro s _ _ hcpt _
    exact ⟨hcpt, by simp [loopTrace], by simp [loopTrace]⟩
  | cons c ticks ih =>
    intro s hlim hmax hcpt hr
    obtain ⟨t, r⟩ := c
    have hstep := loop_default_limit_step myDebug t r s hlim hmax hcpt
      (hr (t, r) (List.mem_cons_self _ _))
    have heff := loop_default_limit_effects myDebug t r s hstep.2
    have hrest := ih (loop myDebug t r s).1 hstep.1.1 hstep.1.2.1 hstep.1.2.2
      (fun x hx => hr x (List.mem_cons_of_mem _ hx))
    simp only [loopStates, loopTrace, List.zip_cons_cons, List.mem_cons]
    refine ⟨hrest.1, ?_, ?_⟩
    · rintro effects (rfl | hmem)
      · exact heff.1
      · exact hrest.2.1 effects hmem
    · rintro p (rfl | hmem)
      · exact heff.2
      · exact hrest.2.2 p hmem

/-- C17: for a monitor built with the default limit 0 and given a counter
maximum of at least 1, along every sequence of calls of `loop` whose readings
are all at least 0: the counter is 0 after every call, no call invokes
`sleep`, and the only report a call can send is the ordinary report of its own
reading (no forced zero-level report). -/
theorem default_limit_never_sleeps (myDebug : Bool)
    (now0 intervalSend intervalSendForce pinInterrupt : Nat)
    (level0 lastLevel0 : ℚ) (dataSent0 : Bool) (m : Nat) (ticks : List (Nat × ℚ))
    (hm : 1 ≤ m) (hr : ∀ t ∈ ticks, (0 : ℚ) ≤ t.2) :
    (∀ k : Nat,
        (loopStates myDebug (ticks.take k)
          (setLevelLimitSecurityCptMax m
            (create now0 intervalSend intervalSendForce 0 pinInterrupt level0 lastLevel0
              dataSent0))).levelLimitSecurityCpt = 0)
      ∧ (∀ effects ∈ loopTrace myDebug ticks
            (setLevelLimitSecurityCptMax m
              (create now0 intervalSend intervalSendForce 0 pinInterrupt level0 lastLevel0
                dataSent0)),
          effects.filter Effect.isSleep = [])
      ∧ (∀ p ∈ ticks.zip (loopTrace myDebug ticks
            (setLevelLimitSecurityCptMax m
              (create now0 intervalSend intervalSendForce 0 pinInterrupt level0 lastLevel0
                dataSent0))),
          p.2.filter Effect.isReport = []
            ∨ p.2.filter Effect.isReport = [Effect.sendBatteryLevel p.1.2 true]) := by
  have hall := loops_default_limit myDebug ticks
    (setLevelLimitSecurityCptMax m
      (create now0 intervalSend intervalSendForce 0 pinInterrupt level0 lastLevel0
        dataSent0)) rfl hm rfl hr
  refine ⟨?_, hall.2.1, hall.2.2⟩
  intro k
  exact (loops_default_limit myDebug (ticks.take k)
    (setLevelLimitSecurityCptMax m
      (create now0 intervalSend intervalSendForce 0 pinInterrupt level0 lastLevel0
        dataSent0)) rfl hm rfl
    (fun t ht => hr t (List.mem_of_mem_take ht))).1

/-- Witness of C17: the default maximum 3 and readings 50, 0, 0, 0 at times
1000 to 4000: no sleep, and the zero readings are sent at most as ordinary
reports. -/
theorem default_limit_never_sleeps_witness :
    1 ≤ 3
      ∧ (∀ t ∈ [((1000 : Nat), (50 : ℚ)), (2000, 0), (3000, 0), (4000, 0)], (0 : ℚ) ≤ t.2)
      ∧ setLevelLimitSecurityCptMax 3 (create 0 1000 5000 0 3 0 0 false)
          = create 0 1000 5000 0 3 0 0 false
      ∧ loopTrace false [(1000, 50), (2000, 0), (3000, 0), (4000, 0)]
          (create 0 1000 5000 0 3 0 0 false)
        = [[Effect.getSOC, Effect.sendBatteryLevel 50 true],
           [Effect.getSOC, Effect.sendBatteryLevel 0 true],
           [Effect.getSOC], [Effect.getSOC]]
      ∧ (∀ effects ∈ loopTrace false [(1000, 50), (2000, 0), (3000, 0), (4000, 0)]
            (setLevelLimitSecurityCptMax 3 (create 0 1000 5000 0 3 0 0 false)),
          effects.filter Effect.isSleep = []) :=
  ⟨by decide, by decide, rfl, by decide,
    (default_limit_never_sleeps false 0 1000 5000 3 0 0 false 3
      [(1000, 50), (2000, 0), (3000, 0), (4000, 0)] (by decide) (by decide)).2.1⟩

end Battery
